import Mathlib

/-!
Shallow embedding of the python-dlogg-driver protocol codec and device
transceiver (src/dlogg_driver/definitions.py and src/dlogg_driver/device.py).

Python integers are modelled as `Nat`/`Int`; floating-point values produced
by the decoders (divisions by 10.0, multiplications by 4.0 and 20.0) are
modelled as `ℚ`; fallible constructors are modelled as `Except Err`.
Serial I/O is modelled by an oracle state (`DevState`): each read consumes
the next prepared response and every written frame is appended to a trace.
-/

namespace DLogg

/-- Error taxonomy of the driver: Python IOError / ValueError / Exception
sites are distinguished by which raise statement produced them. -/
inductive Err where
  | shortRead
  | checksumMismatch
  | unexpectedResponse
  | invalidLoggingCriterion
  | enumValueError
  | unknownInputType
deriving DecidableEq

/-- Command opcodes (class Cmd, definitions.py). -/
def Cmd.GET_MODE : Nat := 0x81

def Cmd.GET_HEADER : Nat := 0xAA

def Cmd.GET_DATA_RANGE : Nat := 0xAC

def Cmd.END_READ : Nat := 0xAD

/-- LoggingCriterion decoded fields (definitions.py lines 53-63). -/
structure LoggingCriterion where
  raw : Nat
  temperature_difference_k : Option ℚ
  time_interval_s : Option ℚ
deriving DecidableEq

/-- LoggingCriterion.__init__ (definitions.py lines 54-63): range dispatch on
the raw byte; raises "Invalid logging criterion" outside both ranges. -/
def LoggingCriterion.decode (raw_data : Nat) : Except Err LoggingCriterion :=
  if 5 ≤ raw_data ∧ raw_data ≤ 120 then
    .ok { raw := raw_data
          temperature_difference_k := some ((raw_data : ℚ) / 10)
          time_interval_s := none }
  else if 129 ≤ raw_data ∧ raw_data ≤ 248 then
    .ok { raw := raw_data
          temperature_difference_k := none
          time_interval_s := some (((raw_data : ℚ) - 128) * 20) }
  else
    .error .invalidLoggingCriterion

/-- The int branch of OneDlAddress.__init__ (definitions.py line 75):
`bytearray([(addr << 6) & 0xFF, (addr >> 1) & 0xFE, (addr >> 9) & 0xFF])`.
The addresses fed to this constructor by the program are nonnegative. -/
def OneDlAddress.encodeArray (addr : Nat) : List Nat :=
  [(addr <<< 6) &&& 0xFF, (addr >>> 1) &&& 0xFE, (addr >>> 9) &&& 0xFF]

/-- The bytearray branch of OneDlAddress.__init__ (definitions.py line 79):
`(addr[0] >> 6) + (addr[1] << 1) + (addr[2] << 9)`. -/
def OneDlAddress.decodeInteger (addr : List Nat) : Nat :=
  (addr.getD 0 0 >>> 6) + (addr.getD 1 0 <<< 1) + (addr.getD 2 0 <<< 9)

/-- A OneDlAddress instance: its `array` and `integer` attributes. -/
structure OneDlAddress where
  array : List Nat
  integer : Int
deriving DecidableEq

/-- OneDlAddress(addr) with an int argument. -/
def OneDlAddress.ofInt (addr : Nat) : OneDlAddress :=
  { array := OneDlAddress.encodeArray addr, integer := (addr : Int) }

/-- OneDlAddress(addr) with a bytearray argument. -/
def OneDlAddress.ofArray (addr : List Nat) : OneDlAddress :=
  { array := addr, integer := (OneDlAddress.decodeInteger addr : Int) }

/-- The reserved "no data" byte triple. -/
def sentinelArray : List Nat := [0xFF, 0xFF, 0xFF]

/-- OneDlAddress.calc_length (definitions.py lines 84-91). -/
def OneDlAddress.calc_length (start end_ : OneDlAddress) : Int :=
  if end_.array = start.array ∧ start.array = sentinelArray then 0
  else if start.integer ≤ end_.integer then end_.integer - start.integer + 1
  else end_.integer - start.integer + 8192 + 1

/-- struct.unpack("<I", b)[0] for a 4-byte buffer: little-endian unsigned. -/
def unpackUInt32LE (b : List Nat) : Nat :=
  b.getD 0 0 + 256 * b.getD 1 0 + 65536 * b.getD 2 0 + 16777216 * b.getD 3 0

/-- A OneDlHeader instance: its decoded attributes. The source attribute
named `end` is rendered `end_` (Lean keyword). -/
structure OneDlHeader where
  raw : List Nat
  identifier : Nat
  version : Nat
  timestamp_s : Nat
  start : OneDlAddress
  end_ : OneDlAddress
deriving DecidableEq

/-- OneDlHeader.__init__ (definitions.py lines 95-106): field extraction from
the 13-byte frame, then the trailing-checksum comparison
`sum(raw_data[0:12]) % 0x100` against `raw_data[12]`. -/
def OneDlHeader.decode (raw_data : List Nat) : Except Err OneDlHeader :=
  let header : OneDlHeader :=
    { raw := raw_data
      identifier := raw_data.getD 0 0
      version := raw_data.getD 1 0
      timestamp_s := unpackUInt32LE ((raw_data.drop 2).take 3 ++ [0]) * 10
      start := .ofArray ((raw_data.drop 6).take 3)
      end_ := .ofArray ((raw_data.drop 9).take 3) }
  let checksum := raw_data.getD 12 0
  let checksum_calc := (raw_data.take 12).sum % 0x100
  if checksum ≠ checksum_calc then .error .checksumMismatch else .ok header

/-- OneDlHeader.get_sample_count (definitions.py lines 108-109). -/
def OneDlHeader.get_sample_count (h : OneDlHeader) : Int :=
  OneDlAddress.calc_length h.start h.end_

/-- DateTime.__init__ (definitions.py lines 124-130). -/
structure DateTime where
  seconds : Nat
  minutes : Nat
  hours : Nat
  day : Nat
  month : Nat
  year : Nat
deriving DecidableEq

def DateTime.decode (raw_data : List Nat) : DateTime :=
  { seconds := raw_data.getD 0 0
    minutes := raw_data.getD 1 0
    hours := raw_data.getD 2 0
    day := raw_data.getD 3 0
    month := raw_data.getD 4 0
    year := 2000 + raw_data.getD 5 0 }

/-- The InputDataSignalType enum (definitions.py lines 137-143). -/
inductive InputDataSignalType where
  | UNUSED
  | DIGITAL
  | TEMPERATURE
  | MASSFLOW
  | SUNLOAD
  | ROOM_TEMPERATURE
deriving DecidableEq

/-- Enum construction `InputDataSignalType(v)`: `none` models the ValueError
Python raises when no member has value `v` (members: 0,1,2,3,6,7). -/
def InputDataSignalType.fromValue : Nat → Option InputDataSignalType
  | 0 => some .UNUSED
  | 1 => some .DIGITAL
  | 2 => some .TEMPERATURE
  | 3 => some .MASSFLOW
  | 6 => some .SUNLOAD
  | 7 => some .ROOM_TEMPERATURE
  | _ => none

/-- struct.unpack("<h", b)[0]: little-endian signed 16-bit word. -/
def unpackInt16LE (raw_data : List Nat) : Int :=
  let u := raw_data.getD 0 0 + 256 * raw_data.getD 1 0
  if u < 0x8000 then (u : Int) else (u : Int) - 0x10000

/-- Python bitwise AND of an int with a nonnegative mask below 2^16: it acts
on the two's-complement bit pattern, hence factors through the residue
modulo 2^16 (nonnegative for the Euclidean `%`). -/
def pyAnd16 (w : Int) (mask : Nat) : Nat :=
  (w % 0x10000).toNat &&& mask

/-- An InputData instance; `room` is only assigned in the ROOM_TEMPERATURE
branch, hence an `Option`. -/
structure InputData where
  type : InputDataSignalType
  value : ℚ
  unit : String
  room : Option Nat := none
deriving DecidableEq

/-- InputData.__init__ (definitions.py lines 147-183). The first assignment
`self.type = raw_data[1] >> 4` is immediately overwritten and omitted. The
if/elif chain on the constructed enum value is kept, including the trailing
`raise Exception("Unknown input type")` branch. -/
def InputData.decode (raw_data : List Nat) : Except Err InputData :=
  let word := unpackInt16LE raw_data
  match InputDataSignalType.fromValue ((pyAnd16 word 0x7000) >>> 12) with
  | none => .error .enumValueError
  | some t =>
    if t = .UNUSED then
      .ok { type := t, value := 0, unit := "" }
    else if t = .DIGITAL then
      .ok { type := t, value := if pyAnd16 word 0x8000 ≠ 0 then 1 else 0, unit := "" }
    else if t = .TEMPERATURE then
      .ok { type := t
            value :=
              if pyAnd16 word 0x8000 ≠ 0 then
                ((((pyAnd16 word 0x0FFF) ^^^ 0x0FFF) + 0x01 : Nat) : ℚ) / (-10)
              else ((pyAnd16 word 0x0FFF : Nat) : ℚ) / 10
            unit := "°C" }
    else if t = .ROOM_TEMPERATURE then
      .ok { type := t
            room := some ((pyAnd16 word 0x600) >>> 9)
            value :=
              if pyAnd16 word 0x8000 ≠ 0 then
                ((((pyAnd16 word 0x01FF) ^^^ 0x01FF) + 0x01 : Nat) : ℚ) / (-10)
              else ((pyAnd16 word 0x01FF : Nat) : ℚ) / 10
            unit := "°C" }
    else if t = .MASSFLOW then
      .ok { type := t
            value :=
              if pyAnd16 word 0x8000 ≠ 0 then
                ((((pyAnd16 word 0x0FFF) ^^^ 0x0FFF) + 0x01 : Nat) : ℚ) * (-4)
              else ((pyAnd16 word 0x0FFF : Nat) : ℚ) * 4
            unit := "l/h" }
    else if t = .SUNLOAD then
      .ok { type := t
            value :=
              if pyAnd16 word 0x8000 ≠ 0 then
                -(((((pyAnd16 word 0x0FFF) ^^^ 0x0FFF) + 0x01 : Nat)) : ℚ)
              else ((pyAnd16 word 0x0FFF : Nat) : ℚ)
            unit := "W/m²" }
    else
      .error .unknownInputType

/-- PumpSpeed.__init__ (definitions.py lines 190-193). -/
structure PumpSpeed where
  controller_active : Bool
  value : Nat
  unit : String
deriving DecidableEq

def PumpSpeed.decode (raw_data : Nat) : PumpSpeed :=
  { controller_active := if raw_data &&& 0x80 ≠ 0 then false else true
    value := raw_data &&& 0x1F
    unit := "rpm" }

/-- The inputs loop of Uvr1611Data.__init__ (definitions.py lines 203-205):
`for i in range(0, 16): InputData(data[i*2:i*2+2])`, propagating the first
decode failure. Arguments: the window `data`, current index `i`, iterations
remaining. -/
def decodeInputs (data : List Nat) : Nat → Nat → Except Err (List InputData)
  | _, 0 => .ok []
  | i, n + 1 =>
    match InputData.decode ((data.drop (i * 2)).take 2) with
    | .error e => .error e
    | .ok d =>
      match decodeInputs data (i + 1) n with
      | .error e => .error e
      | .ok ds => .ok (d :: ds)

/-- The outputs loop (definitions.py lines 206-208): 13 bits of the
little-endian 16-bit word at data[32:34]. -/
def decodeOutputs (data : List Nat) : List Bool :=
  (List.range 13).map
    (fun i => (data.getD 32 0 + 256 * data.getD 33 0) &&& (1 <<< i) != 0)

/-- A Uvr1611Data instance (the fields the source decodes and keeps). -/
structure Uvr1611Data where
  raw : List Nat
  inputs : List InputData
  outputs : List Bool
  pump_speeds : List PumpSpeed
deriving DecidableEq

/-- Uvr1611Data.__init__ (definitions.py lines 200-222): inputs are decoded
(and may raise) before the whole-buffer checksum `sum(raw_data[0:-1]) & 0xFF`
is compared with `raw_data[-1]`. -/
def Uvr1611Data.decode (raw_data : List Nat) (offset : Nat) : Except Err Uvr1611Data :=
  let data := raw_data.drop offset
  match decodeInputs data 0 16 with
  | .error e => .error e
  | .ok inputs =>
    let outputs := decodeOutputs data
    let pump_speeds := (List.range 4).map (fun i => PumpSpeed.decode (data.getD (34 + i) 0))
    let checksum := raw_data.getD (raw_data.length - 1) 0
    let checksum_calc := raw_data.dropLast.sum &&& 0xFF
    if checksum ≠ checksum_calc then .error .checksumMismatch
    else .ok { raw := raw_data, inputs := inputs, outputs := outputs, pump_speeds := pump_speeds }

/-- A Uvr1611MemoryData instance: base fields plus datetime and timestamp. -/
structure Uvr1611MemoryData where
  base : Uvr1611Data
  datetime : DateTime
  timestamp_s : Nat
deriving DecidableEq

/-- Uvr1611MemoryData.__init__ (definitions.py lines 246-250): base decode at
offset 0, then datetime from raw_data[55:61] and the 24-bit timestamp from
raw_data[61:64]. -/
def Uvr1611MemoryData.decode (raw_data : List Nat) : Except Err Uvr1611MemoryData :=
  match Uvr1611Data.decode raw_data 0 with
  | .error e => .error e
  | .ok base =>
    .ok { base := base
          datetime := DateTime.decode ((raw_data.drop 55).take 6)
          timestamp_s := unpackUInt32LE ((raw_data.drop 61).take 3 ++ [0]) * 10 }

/-- Serial-channel oracle: `responses` are the byte strings successive reads
will deliver; `trace` records every frame written, in order. The source's
flushInput discards unread device bytes and needs no model here because each
read consumes exactly one prepared response. -/
structure DevState where
  responses : List (List Nat)
  trace : List (List Nat)
deriving DecidableEq

/-- DLoggDevice._transceive (device.py lines 117-126): optionally append the
additive checksum byte, write the frame, read `rx_len` bytes; fewer bytes
than expected raise IOError (short read). -/
def transceive (tx_data : List Nat) (rx_len : Nat) (checksum : Bool) (s : DevState) :
    Except Err (List Nat) × DevState :=
  let tx := if checksum then tx_data ++ [tx_data.sum % 0x100] else tx_data
  let rx := s.responses.headD []
  let s1 : DevState := { responses := s.responses.tail, trace := s.trace ++ [tx] }
  if rx.length ≠ rx_len then (.error .shortRead, s1) else (.ok rx, s1)

/-- DLoggDevice.get_header (device.py lines 78-79). -/
def get_header (s : DevState) : Except Err OneDlHeader × DevState :=
  match transceive [Cmd.GET_HEADER] 13 false s with
  | (.error e, s1) => (.error e, s1)
  | (.ok rx, s1) => (OneDlHeader.decode rx, s1)

/-- DLoggDevice.fetch_data (device.py lines 84-88). -/
def fetch_data (address : OneDlAddress) (s : DevState) :
    Except Err Uvr1611MemoryData × DevState :=
  let tx_data := [Cmd.GET_DATA_RANGE] ++ address.array ++ [0x01]
  match transceive tx_data 65 true s with
  | (.error e, s1) => (.error e, s1)
  | (.ok rx, s1) => (Uvr1611MemoryData.decode rx, s1)

/-- The loop of DLoggDevice.fetch_data_range (device.py lines 90-96):
`for i in range(0, length)`, fetching `OneDlAddress((start.integer + i) % 8192)`
each iteration and aborting on the first failure. -/
def fetch_data_range_go (start_addr : OneDlAddress) :
    Nat → Nat → List Uvr1611MemoryData → DevState →
    Except Err (List Uvr1611MemoryData) × DevState
  | _, 0, acc, s => (.ok acc, s)
  | i, n + 1, acc, s =>
    let addr := OneDlAddress.ofInt (((start_addr.integer + (i : Int)) % 8192).toNat)
    match fetch_data addr s with
    | (.error e, s1) => (.error e, s1)
    | (.ok d, s1) => fetch_data_range_go start_addr (i + 1) n (acc ++ [d]) s1

/-- DLoggDevice.fetch_data_range: Python `range(0, length)` is empty for a
nonpositive length, hence `length.toNat` iterations. -/
def fetch_data_range (start_addr : OneDlAddress) (length : Int) (s : DevState) :
    Except Err (List Uvr1611MemoryData) × DevState :=
  fetch_data_range_go start_addr 0 length.toNat [] s

/-- DLoggDevice.fetch_end (device.py lines 98-102). -/
def fetch_end (s : DevState) : Except Err Unit × DevState :=
  match transceive [Cmd.END_READ] 1 false s with
  | (.error e, s1) => (.error e, s1)
  | (.ok rx, s1) =>
    if rx.getD 0 0 ≠ Cmd.END_READ then (.error .unexpectedResponse, s1) else (.ok (), s1)

/-- DLoggDevice.fetch_all_data (device.py lines 104-109): try body (header
fetch, then range fetch) with `fetch_end` in a finally block. Python finally
semantics: the finally clause always runs; an error it raises replaces the
body's outcome, otherwise the body's outcome stands. -/
def fetch_all_data (s : DevState) : Except Err (List Uvr1611MemoryData) × DevState :=
  let bodyRes :=
    match get_header s with
    | (.error e, s1) => ((.error e : Except Err (List Uvr1611MemoryData)), s1)
    | (.ok header, s1) => fetch_data_range header.start header.get_sample_count s1
  let endRes := fetch_end bodyRes.2
  match endRes.1 with
  | .error e => (.error e, endRes.2)
  | .ok _ => (bodyRes.1, endRes.2)

/-- The full wire frame written by one get-data-range command for the i-th
slot of a range read starting at `start`: opcode, 3 address bytes, count
byte 0x01, additive checksum. -/
def dataRangeFrame (start : OneDlAddress) (i : Nat) : List Nat :=
  let addr := OneDlAddress.ofInt (((start.integer + (i : Int)) % 8192).toNat)
  let tx := [Cmd.GET_DATA_RANGE] ++ addr.array ++ [0x01]
  tx ++ [tx.sum % 0x100]

end DLogg

deriving instance DecidableEq for Except

namespace DLogg

set_option maxRecDepth 16000

/-- A byte-mask AND is a residue: y AND 255 = y mod 256. -/
theorem and_255_eq_mod (y : Nat) : y &&& 255 = y % 256 := by
  rw [show (255 : Nat) = 2 ^ 8 - 1 from rfl, Nat.and_pow_two_sub_one_eq_mod]

/-- ANDing with 254 only sees the low byte. -/
theorem and_254_mod (y : Nat) : y &&& 254 = (y % 256) &&& 254 := by
  rw [← and_255_eq_mod, Nat.and_assoc,
    (by decide : (255 : Nat) &&& 254 = 254)]

/-- On a byte, ANDing with 254 clears the low bit. -/
theorem byte_and_254 : ∀ z < 256, z &&& 254 = z - z % 2 := by decide

/-- C1: for every integer i in [0, 8191], decoding the 3-byte array produced
by encoding i yields i again, and re-encoding that decoded integer reproduces
the same 3-byte array; both directions are total functions. -/
theorem address_roundtrip :
    ∀ i < 8192,
      OneDlAddress.decodeInteger (OneDlAddress.encodeArray i) = i ∧
      OneDlAddress.encodeArray
          (OneDlAddress.decodeInteger (OneDlAddress.encodeArray i)) =
        OneDlAddress.encodeArray i := by
  intro i hi
  have h1 : OneDlAddress.decodeInteger (OneDlAddress.encodeArray i) = i := by
    show ((i <<< 6) &&& 255) >>> 6 + (((i >>> 1) &&& 254) <<< 1) +
        (((i >>> 9) &&& 255) <<< 9) = i
    have e0 : (i <<< 6) &&& 255 = i % 4 * 64 := by
      rw [Nat.shiftLeft_eq, and_255_eq_mod,
        (by norm_num : (2 : Nat) ^ 6 = 64), (by norm_num : (256 : Nat) = 4 * 64),
        Nat.mul_mod_mul_right]
    have e1 : (i >>> 1) &&& 254 = i / 2 % 256 - i / 2 % 256 % 2 := by
      rw [Nat.shiftRight_eq_div_pow, (by norm_num : (2 : Nat) ^ 1 = 2), and_254_mod,
        byte_and_254 (i / 2 % 256) (Nat.mod_lt _ (by norm_num))]
    have e2 : (i >>> 9) &&& 255 = i / 512 % 256 := by
      rw [Nat.shiftRight_eq_div_pow, (by norm_num : (2 : Nat) ^ 9 = 512),
        and_255_eq_mod]
    rw [e0, e1, e2, Nat.shiftRight_eq_div_pow, Nat.shiftLeft_eq, Nat.shiftLeft_eq,
      (by norm_num : (2 : Nat) ^ 6 = 64), (by norm_num : (2 : Nat) ^ 1 = 2),
      (by norm_num : (2 : Nat) ^ 9 = 512)]
    omega
  exact ⟨h1, by rw [h1]⟩

/-- Witness for C1 at i = 5000. -/
theorem address_roundtrip_witness :
    5000 < 8192 ∧
    (OneDlAddress.decodeInteger (OneDlAddress.encodeArray 5000) = 5000 ∧
     OneDlAddress.encodeArray
         (OneDlAddress.decodeInteger (OneDlAddress.encodeArray 5000)) =
       OneDlAddress.encodeArray 5000) :=
  ⟨by decide, address_roundtrip 5000 (by decide)⟩

/-- C2: calc_length returns 0 when both addresses carry the sentinel triple,
otherwise end - start + 1 when end >= start and end - start + 8192 + 1 when
end < start; in particular calc_length(a, a) = 1 for non-sentinel a, and
start index 8000 with end index 100 gives 293. -/
theorem calc_length_spec :
    (∀ start end_ : OneDlAddress,
       (start.array = sentinelArray ∧ end_.array = sentinelArray →
          OneDlAddress.calc_length start end_ = 0) ∧
       (¬(start.array = sentinelArray ∧ end_.array = sentinelArray) →
          (start.integer ≤ end_.integer →
             OneDlAddress.calc_length start end_ = end_.integer - start.integer + 1) ∧
          (end_.integer < start.integer →
             OneDlAddress.calc_length start end_ =
               end_.integer - start.integer + 8192 + 1))) ∧
    (∀ a : OneDlAddress, a.array ≠ sentinelArray → OneDlAddress.calc_length a a = 1) ∧
    OneDlAddress.calc_length (.ofInt 8000) (.ofInt 100) = 293 := by
  refine ⟨fun start end_ => ⟨fun h => ?_, fun h => ⟨fun hle => ?_, fun hlt => ?_⟩⟩,
    fun a ha => ?_, by decide⟩
  · simp [OneDlAddress.calc_length, h.1, h.2]
  · have hns : ¬(end_.array = start.array ∧ start.array = sentinelArray) := by
      intro hc; exact h ⟨hc.2, hc.1 ▸ hc.2⟩
    simp [OneDlAddress.calc_length, hns, hle]
  · have hns : ¬(end_.array = start.array ∧ start.array = sentinelArray) := by
      intro hc; exact h ⟨hc.2, hc.1 ▸ hc.2⟩
    simp only [OneDlAddress.calc_length, if_neg hns]
    rw [if_neg (by omega)]
  · simp [OneDlAddress.calc_length, ha]

/-- Witness for C2: the non-sentinel address with index 42 has
calc_length(a, a) = 1. -/
theorem calc_length_spec_witness :
    (OneDlAddress.ofInt 42).array ≠ sentinelArray ∧
    OneDlAddress.calc_length (.ofInt 42) (.ofInt 42) = 1 :=
  ⟨by decide, calc_length_spec.2.1 (.ofInt 42) (by decide)⟩

/-- C7: LoggingCriterion decoding succeeds exactly on [5, 120] (temperature
difference b/10 K, no time interval) and on [129, 248] (time interval
(b - 128) * 20 s, no temperature difference), fails with
InvalidLoggingCriterion elsewhere, and retains the raw byte unchanged. -/
theorem logging_criterion_spec :
    ∀ b : Nat,
      ((LoggingCriterion.decode b).isOk = true ↔
         (5 ≤ b ∧ b ≤ 120) ∨ (129 ≤ b ∧ b ≤ 248)) ∧
      (5 ≤ b ∧ b ≤ 120 →
         LoggingCriterion.decode b =
           .ok { raw := b, temperature_difference_k := some ((b : ℚ) / 10)
                 time_interval_s := none }) ∧
      (129 ≤ b ∧ b ≤ 248 →
         LoggingCriterion.decode b =
           .ok { raw := b, temperature_difference_k := none
                 time_interval_s := some (((b : ℚ) - 128) * 20) }) ∧
      (¬(5 ≤ b ∧ b ≤ 120) ∧ ¬(129 ≤ b ∧ b ≤ 248) →
         LoggingCriterion.decode b = .error .invalidLoggingCriterion) := by
  intro b
  by_cases h1 : 5 ≤ b ∧ b ≤ 120
  · exact ⟨by simp [LoggingCriterion.decode, h1, Except.isOk, Except.toBool],
      fun _ => by simp [LoggingCriterion.decode, h1],
      fun h2 => by omega, fun h3 => (h3.1 h1).elim⟩
  · by_cases h2 : 129 ≤ b ∧ b ≤ 248
    · exact ⟨by simp [LoggingCriterion.decode, h1, h2, Except.isOk, Except.toBool],
        fun h1c => (h1 h1c).elim,
        fun _ => by simp [LoggingCriterion.decode, h1, h2],
        fun h3 => (h3.2 h2).elim⟩
    · exact ⟨by simp [LoggingCriterion.decode, h1, h2, Except.isOk, Except.toBool],
        fun h1c => (h1 h1c).elim, fun h2c => (h2 h2c).elim,
        fun _ => by simp [LoggingCriterion.decode, h1, h2]⟩

/-- Witness for C7 at raw byte 42 (temperature-difference range). -/
theorem logging_criterion_spec_witness :
    LoggingCriterion.decode 42 =
      .ok { raw := 42, temperature_difference_k := some (((42 : Nat) : ℚ) / 10)
            time_interval_s := none } :=
  (logging_criterion_spec 42).2.1 (by decide)

/-- A byte ANDed with 0x80 vanishes exactly when its bit 7 is clear. -/
theorem and_128_eq_zero_iff (b : Nat) : b &&& 128 = 0 ↔ b.testBit 7 = false := by
  rw [show (128 : Nat) = 2 ^ 7 from rfl, Nat.and_two_pow]
  cases h : b.testBit 7 <;> simp

/-- C8: the decoded pump speed is b AND 0x1F (hence in [0, 31]) and the
controller-active flag is true exactly when bit 7 of b is clear; byte 0x03
gives speed 3 active, byte 0x83 gives speed 3 inactive. -/
theorem pump_speed_spec :
    (∀ b : Nat,
       (PumpSpeed.decode b).value = b &&& 0x1F ∧
       (PumpSpeed.decode b).value ≤ 31 ∧
       ((PumpSpeed.decode b).controller_active = true ↔ b.testBit 7 = false)) ∧
    PumpSpeed.decode 0x03 = { controller_active := true, value := 3, unit := "rpm" } ∧
    PumpSpeed.decode 0x83 = { controller_active := false, value := 3, unit := "rpm" } := by
  refine ⟨fun b => ⟨rfl, Nat.and_le_right, ?_⟩, by decide, by decide⟩
  by_cases h : b &&& 0x80 = 0
  · simp [PumpSpeed.decode, h, (and_128_eq_zero_iff b).mp h]
  · have ht : b.testBit 7 = true := by
      cases hfb : b.testBit 7
      · exact absurd ((and_128_eq_zero_iff b).mpr hfb) h
      · rfl
    simp [PumpSpeed.decode, h, ht]


/-- Replacing one element of a list of naturals shifts the sum by the
difference between the new and old values. -/
theorem sum_set_getD_add (l : List Nat) :
    ∀ j v, j < l.length → (l.set j v).sum + l.getD j 0 = l.sum + v := by
  induction l with
  | nil => intro j v h; simp at h
  | cons a t ih =>
    intro j v h
    cases j with
    | zero => simp [List.set]; omega
    | succ j =>
      have ht := ih j v (by simpa using h)
      simp only [List.set, List.sum_cons, List.getD_cons_succ]
      omega

/-- XOR with a single bit below 2^8 either adds or subtracts that bit. -/
theorem xor_single_bit :
    ∀ b < 256, ∀ k < 8,
      b ^^^ (1 <<< k) = b + (1 <<< k) ∨ (b ^^^ (1 <<< k)) + (1 <<< k) = b := by
  decide

/-- The single-bit masks for a byte are positive and below 256. -/
theorem shift_bit_bounds : ∀ k < 8, 0 < 1 <<< k ∧ 1 <<< k < 256 := by decide

/-- C5: decoding a 13-byte header succeeds if and only if byte 12 equals the
sum of bytes 0-11 modulo 256, fails with the checksum-mismatch error
otherwise, and flipping any single bit of bytes 0-11 of a valid header
without recomputing byte 12 makes decoding fail with checksum mismatch. -/
theorem header_checksum_spec :
    ∀ raw : List Nat, raw.length = 13 → (∀ b ∈ raw, b < 256) →
      ((OneDlHeader.decode raw).isOk = true ↔
         raw.getD 12 0 = (raw.take 12).sum % 256) ∧
      (raw.getD 12 0 ≠ (raw.take 12).sum % 256 →
         OneDlHeader.decode raw = .error .checksumMismatch) ∧
      ((OneDlHeader.decode raw).isOk = true →
         ∀ j < 12, ∀ k < 8,
           OneDlHeader.decode (raw.set j (raw.getD j 0 ^^^ (1 <<< k))) =
             .error .checksumMismatch) := by
  have base : ∀ l : List Nat,
      ((OneDlHeader.decode l).isOk = true ↔ l.getD 12 0 = (l.take 12).sum % 256) ∧
      (l.getD 12 0 ≠ (l.take 12).sum % 256 →
        OneDlHeader.decode l = .error .checksumMismatch) := by
    intro l
    constructor
    · by_cases h : l.getD 12 0 = (l.take 12).sum % 256
      · simp only [OneDlHeader.decode]
        rw [if_neg (not_not_intro h)]
        simpa [Except.isOk, Except.toBool] using h
      · simp only [OneDlHeader.decode]
        rw [if_pos h]
        simpa [Except.isOk, Except.toBool] using h
    · intro hne
      simp only [OneDlHeader.decode]
      rw [if_pos hne]
  intro raw hlen hbound
  refine ⟨(base raw).1, (base raw).2, ?_⟩
  intro hok j hj k hk
  have hc : raw.getD 12 0 = (raw.take 12).sum % 256 := ((base raw).1).mp hok
  have hjl : j < raw.length := by omega
  have hb : raw.getD j 0 < 256 := by
    have hmem : raw.getD j 0 ∈ raw := by
      simp only [List.getD_eq_getElem?_getD, List.getElem?_eq_getElem hjl,
        Option.getD_some]
      exact List.getElem_mem hjl
    exact hbound _ hmem
  have h12 : (raw.set j (raw.getD j 0 ^^^ (1 <<< k))).getD 12 0 = raw.getD 12 0 := by
    simp only [List.getD_eq_getElem?_getD, List.getElem?_set_ne (by omega : j ≠ 12)]
  have htake : (raw.set j (raw.getD j 0 ^^^ (1 <<< k))).take 12 =
      (raw.take 12).set j (raw.getD j 0 ^^^ (1 <<< k)) := List.set_take
  have hgd : (raw.take 12).getD j 0 = raw.getD j 0 := by
    simp only [List.getD_eq_getElem?_getD, List.getElem?_take_of_lt hj]
  have hsum := sum_set_getD_add (raw.take 12) j (raw.getD j 0 ^^^ (1 <<< k))
    (by rw [List.length_take]; omega)
  rw [hgd] at hsum
  have hxor := xor_single_bit (raw.getD j 0) hb k hk
  have hpow := shift_bit_bounds k hk
  have hne : (raw.set j (raw.getD j 0 ^^^ (1 <<< k))).getD 12 0 ≠
      ((raw.set j (raw.getD j 0 ^^^ (1 <<< k))).take 12).sum % 256 := by
    rw [h12, htake]
    rcases hxor with hx | hx <;> omega
  exact (base (raw.set j (raw.getD j 0 ^^^ (1 <<< k)))).2 hne

/-- Witness for C5: the all-zero 13-byte header is valid, and flipping bit 0
of byte 0 makes decoding fail with checksum mismatch. -/
theorem header_checksum_spec_witness :
    OneDlHeader.decode
        ((List.replicate 13 0).set 0 ((List.replicate 13 0).getD 0 0 ^^^ (1 <<< 0))) =
      .error .checksumMismatch :=
  (header_checksum_spec (List.replicate 13 0) (by decide) (by decide)).2.2
    (by decide) 0 (by decide) 0 (by decide)


/-- C6: for a 2-byte little-endian signed word with tag bits (12-14) equal
to 2 (TEMPERATURE), the decoded value is (w AND 0x0FFF)/10 degrees Celsius
when the sign bit is clear and -(((w AND 0x0FFF) XOR 0x0FFF) + 1)/10 when it
is set; word 0x2005 decodes to 0.5. -/
theorem temperature_decode_spec :
    (∀ b0 b1 : Nat, b0 < 256 → b1 < 256 →
       (pyAnd16 (unpackInt16LE [b0, b1]) 0x7000) >>> 12 = 2 →
       InputData.decode [b0, b1] =
         .ok { type := .TEMPERATURE
               value :=
                 if pyAnd16 (unpackInt16LE [b0, b1]) 0x8000 ≠ 0 then
                   -((((pyAnd16 (unpackInt16LE [b0, b1]) 0x0FFF) ^^^ 0x0FFF) + 1 : Nat) / (10 : ℚ))
                 else ((pyAnd16 (unpackInt16LE [b0, b1]) 0x0FFF : Nat) : ℚ) / 10
               unit := "°C", room := none }) ∧
    InputData.decode [0x05, 0x20] =
      .ok { type := .TEMPERATURE, value := 1 / 2, unit := "°C", room := none } := by
  constructor
  · intro b0 b1 h0 h1 htag
    simp only [InputData.decode, htag, InputDataSignalType.fromValue]
    rw [if_neg (by decide), if_neg (by decide), if_pos (by decide)]
    norm_num [div_neg]
  · have h : InputData.decode [0x05, 0x20] =
        .ok { type := .TEMPERATURE, value := ((5 : Nat) : ℚ) / 10, unit := "°C"
              room := none } := rfl
    rw [h]
    norm_num

/-- Witness for C6 at the bytes of word 0x2005. -/
theorem temperature_decode_spec_witness :
    InputData.decode [5, 32] =
      .ok { type := .TEMPERATURE
            value :=
              if pyAnd16 (unpackInt16LE [5, 32]) 0x8000 ≠ 0 then
                -((((pyAnd16 (unpackInt16LE [5, 32]) 0x0FFF) ^^^ 0x0FFF) + 1 : Nat) / (10 : ℚ))
              else ((pyAnd16 (unpackInt16LE [5, 32]) 0x0FFF : Nat) : ℚ) / 10
            unit := "°C", room := none } :=
  temperature_decode_spec.1 5 32 (by decide) (by decide) (by decide)

/-- C10: tag values 4 and 5 have no InputDataSignalType member, so decoding
such words fails at enum construction, and the trailing "Unknown input type"
branch is unreachable for every 2-byte input. -/
theorem unknown_input_type_unreachable :
    InputDataSignalType.fromValue 4 = none ∧
    InputDataSignalType.fromValue 5 = none ∧
    (∀ b0 b1 : Nat, b0 < 256 → b1 < 256 →
       ((pyAnd16 (unpackInt16LE [b0, b1]) 0x7000) >>> 12 = 4 ∨
        (pyAnd16 (unpackInt16LE [b0, b1]) 0x7000) >>> 12 = 5) →
       InputData.decode [b0, b1] = .error .enumValueError) ∧
    (∀ b0 b1 : Nat, InputData.decode [b0, b1] ≠ .error .unknownInputType) := by
  refine ⟨rfl, rfl, ?_, ?_⟩
  · intro b0 b1 h0 h1 htag
    rcases htag with h | h <;>
      simp only [InputData.decode, h, InputDataSignalType.fromValue]
  · intro b0 b1
    simp only [InputData.decode]
    cases hfv : InputDataSignalType.fromValue
        ((pyAnd16 (unpackInt16LE [b0, b1]) 0x7000) >>> 12) with
    | none => simp
    | some t => cases t <;> simp

/-- Witness for C10: word 0x4000 has tag 4 and fails at enum construction. -/
theorem unknown_input_type_unreachable_witness :
    InputData.decode [0, 64] = .error .enumValueError :=
  unknown_input_type_unreachable.2.2.1 0 64 (by decide) (by decide) (.inl (by decide))


/-- The state after a transceive: one response consumed, the written frame
(with its checksum byte when requested) appended to the trace. -/
theorem transceive_snd (tx_data : List Nat) (rx_len : Nat) (checksum : Bool) (s : DevState) :
    (transceive tx_data rx_len checksum s).2 =
      { responses := s.responses.tail
        trace := s.trace ++ [if checksum then tx_data ++ [tx_data.sum % 0x100] else tx_data] } := by
  simp only [transceive]
  split <;> rfl

/-- get_header passes the transceive state through unchanged. -/
theorem get_header_snd (s : DevState) :
    (get_header s).2 = (transceive [Cmd.GET_HEADER] 13 false s).2 := by
  simp only [get_header]
  rcases h : transceive [Cmd.GET_HEADER] 13 false s with ⟨r, s1⟩
  cases r <;> rfl

/-- fetch_data passes the transceive state through unchanged. -/
theorem fetch_data_snd (address : OneDlAddress) (s : DevState) :
    (fetch_data address s).2 =
      (transceive ([Cmd.GET_DATA_RANGE] ++ address.array ++ [0x01]) 65 true s).2 := by
  simp only [fetch_data]
  rcases h : transceive ([Cmd.GET_DATA_RANGE] ++ address.array ++ [0x01]) 65 true s with ⟨r, s1⟩
  cases r <;> rfl

/-- fetch_end appends exactly the END_READ frame to the trace. -/
theorem fetch_end_trace (s : DevState) :
    (fetch_end s).2.trace = s.trace ++ [[Cmd.END_READ]] := by
  have h1 : (fetch_end s).2 = (transceive [Cmd.END_READ] 1 false s).2 := by
    simp only [fetch_end]
    rcases h : transceive [Cmd.END_READ] 1 false s with ⟨r, s1⟩
    rcases r with e | rx
    · rfl
    · dsimp only
      split <;> rfl
  rw [h1, transceive_snd]
  simp

/-- The trace contribution of one fetch_data call, given its outcome. -/
theorem fetch_data_trace_of_eq {address : OneDlAddress} {r : Except Err Uvr1611MemoryData}
    {s s1 : DevState} (hf : fetch_data address s = (r, s1)) :
    s1.trace = s.trace ++
      [([Cmd.GET_DATA_RANGE] ++ address.array ++ [0x01]) ++
        [([Cmd.GET_DATA_RANGE] ++ address.array ++ [0x01]).sum % 0x100]] := by
  have hfd := fetch_data_snd address s
  rw [hf] at hfd
  simp only at hfd
  rw [hfd, transceive_snd]
  simp

/-- Every frame written by the range-fetch loop starts with the
GET_DATA_RANGE opcode, whatever the oracle answers. -/
theorem fetch_data_range_go_trace (start_addr : OneDlAddress) :
    ∀ (n i : Nat) (acc : List Uvr1611MemoryData) (s : DevState),
      ∃ ext : List (List Nat),
        (fetch_data_range_go start_addr i n acc s).2.trace = s.trace ++ ext ∧
        ∀ f ∈ ext, f.headD 0 = Cmd.GET_DATA_RANGE := by
  intro n
  induction n with
  | zero =>
    intro i acc s
    exact ⟨[], by simp [fetch_data_range_go], by simp⟩
  | succ n ih =>
    intro i acc s
    simp only [fetch_data_range_go]
    rcases hf : fetch_data
        (OneDlAddress.ofInt (((start_addr.integer + (i : Int)) % 8192).toNat)) s with ⟨r, s1⟩
    have hs1 : s1.trace = s.trace ++ [dataRangeFrame start_addr i] :=
      (fetch_data_trace_of_eq hf).trans (by rfl)
    cases r with
    | error e =>
      refine ⟨[dataRangeFrame start_addr i], by simpa using hs1, ?_⟩
      intro f hf2
      rw [List.mem_singleton.mp hf2]
      rfl
    | ok d =>
      obtain ⟨ext, hext, hall⟩ := ih (i + 1) (acc ++ [d]) s1
      refine ⟨dataRangeFrame start_addr i :: ext, ?_, ?_⟩
      · rw [hext, hs1]
        simp
      · intro f hf2
        rcases List.mem_cons.mp hf2 with hf3 | hf3
        · rw [hf3]; rfl
        · exact hall f hf3

/-- C3: every execution of fetch_all_data, including those in which the
header fetch or any data fetch fails, writes the END_READ frame exactly
once, as the final frame of the session. -/
theorem fetch_all_data_end_read :
    ∀ s : DevState, ∃ t : List (List Nat),
      (fetch_all_data s).2.trace = s.trace ++ t ++ [[Cmd.END_READ]] ∧
      [Cmd.END_READ] ∉ t := by
  intro s
  rcases hh : get_header s with ⟨rh, s1⟩
  have h1 : s1.trace = s.trace ++ [[Cmd.GET_HEADER]] := by
    have hgh := get_header_snd s
    rw [hh] at hgh
    simp only at hgh
    rw [hgh, transceive_snd]
    simp
  cases rh with
  | error e =>
    have h2 : (fetch_all_data s).2 = (fetch_end s1).2 := by
      simp only [fetch_all_data, hh]
      rcases he : fetch_end s1 with ⟨re, s2⟩
      cases re <;> rfl
    refine ⟨[[Cmd.GET_HEADER]], ?_, by decide⟩
    rw [h2, fetch_end_trace, h1]
  | ok header =>
    obtain ⟨ext, hext, hall⟩ :=
      fetch_data_range_go_trace header.start header.get_sample_count.toNat 0 [] s1
    have h2 : (fetch_all_data s).2 =
        (fetch_end (fetch_data_range_go header.start 0
          header.get_sample_count.toNat [] s1).2).2 := by
      simp only [fetch_all_data, hh, fetch_data_range]
      rcases he : fetch_end (fetch_data_range_go header.start 0
          header.get_sample_count.toNat [] s1).2 with ⟨re, s2⟩
      cases re <;> rfl
    refine ⟨[Cmd.GET_HEADER] :: ext, ?_, ?_⟩
    · rw [h2, fetch_end_trace, hext, h1]
      simp
    · intro hmem
      rcases List.mem_cons.mp hmem with h3 | h3
      · exact absurd h3.symm (by decide)
      · have := hall _ h3
        simp [Cmd.GET_DATA_RANGE, Cmd.END_READ] at this

/-- Splitting one application off a shifted range map. -/
theorem range_map_shift {α : Type} (g : Nat → α) (i n : Nat) :
    (List.range (n + 1)).map (fun j => g (i + j)) =
      g i :: (List.range n).map (fun j => g (i + 1 + j)) := by
  rw [List.range_succ_eq_map, List.map_cons, List.map_map]
  congr 1
  refine List.map_congr_left fun a ha => ?_
  simp only [Function.comp_apply]
  congr 1
  omega

/-- When the range-fetch loop succeeds it writes exactly one frame per
remaining slot, in index order. -/
theorem fetch_data_range_go_trace_ok (start_addr : OneDlAddress) :
    ∀ (n i : Nat) (acc : List Uvr1611MemoryData) (s : DevState),
      (fetch_data_range_go start_addr i n acc s).1.isOk = true →
      (fetch_data_range_go start_addr i n acc s).2.trace =
        s.trace ++ (List.range n).map (fun j => dataRangeFrame start_addr (i + j)) := by
  intro n
  induction n with
  | zero =>
    intro i acc s h
    simp [fetch_data_range_go]
  | succ n ih =>
    intro i acc s
    simp only [fetch_data_range_go]
    rcases hf : fetch_data
        (OneDlAddress.ofInt (((start_addr.integer + (i : Int)) % 8192).toNat)) s with ⟨r, s1⟩
    have hs1 : s1.trace = s.trace ++ [dataRangeFrame start_addr i] :=
      (fetch_data_trace_of_eq hf).trans (by rfl)
    cases r with
    | error e =>
      intro h
      simp [Except.isOk, Except.toBool] at h
    | ok d =>
      intro h
      have ihh := ih (i + 1) (acc ++ [d]) s1 h
      rw [ihh, hs1, range_map_shift]
      simp

/-- C4: a successful fetch_data_range(start, L) writes exactly one
get-data-range frame per index i in [0, L), in increasing order, the i-th
addressed to (start.integer + i) mod 8192; start 8190 with length 5 visits
addresses 8190, 8191, 0, 1, 2. -/
theorem fetch_data_range_commands :
    (∀ (start_addr : OneDlAddress) (length : Int) (s : DevState),
       (fetch_data_range start_addr length s).1.isOk = true →
       (fetch_data_range start_addr length s).2.trace =
         s.trace ++ (List.range length.toNat).map (fun i => dataRangeFrame start_addr i)) ∧
    (List.range 5).map
        (fun i => (((OneDlAddress.ofInt 8190).integer + (i : Int)) % 8192).toNat) =
      [8190, 8191, 0, 1, 2] := by
  refine ⟨?_, by decide⟩
  intro start_addr length s h
  have hgo := fetch_data_range_go_trace_ok start_addr length.toNat 0 [] s
    (by simpa [fetch_data_range] using h)
  simpa [fetch_data_range] using hgo

/-- Witness for C4: five valid all-zero responses let the range read from
index 8190 with length 5 succeed and write the five expected frames. -/
theorem fetch_data_range_commands_witness :
    (fetch_data_range (.ofInt 8190) 5
        { responses := List.replicate 5 (List.replicate 65 0), trace := [] }).2.trace =
      [] ++ (List.range (5 : Int).toNat).map (fun i => dataRangeFrame (.ofInt 8190) i) :=
  fetch_data_range_commands.1 (.ofInt 8190) 5 _ (by decide)

end DLogg
